import Mathlib

/-!
Verification of the forge route (`src/web/src/app/api/forge/route.ts`) of the
gemini-dynamic-typeface repository.

The embedding below translates the data model and the control loop of the
`POST` handler into Lean:

* JavaScript numbers are modelled as exact rationals (`ℚ`); `Math.round` is
  Mathlib's `round` (both round half-integers up), `Math.max`/`Math.min` are
  `max`/`min`.  Scores produced by `Math.round` are typed `ℤ`.
* TypeScript string-literal unions are modelled as `String` fields.
* The external Gemini calls (`generateImage`, `extractMathematicalDNA`,
  `evaluateVisualSimilarity`) are oracles: their per-iteration outcomes are
  supplied by an environment record, one per iteration index.
* Cancellation: `isCancelled` is set by an asynchronous abort listener, so it
  can flip at the suspension points of the handler.  The environment supplies
  one boolean per observation window (before the loop-top check, during the
  generation await, during the extraction/evaluation awaits); the flag is
  or-accumulated and, once set, never cleared, as in the source.
* Free-text `message` fields and wall-clock `time` fields of the emitted
  events are not modelled; the event constructors keep the discriminating
  `type` tag and the payload fields the properties below speak about.
-/

inductive ScriptType where
  | latin
  | japanese
  | mixed
deriving DecidableEq, Repr

structure VisualStyleDNA where
  backgroundColor : String
  textColor : String
  fillStyle : String
  outlineThicknessPx : ℚ
  italicAngleDeg : ℚ
  hasDropShadow : Bool
  has3DEffect : Bool
  textureStyle : String
deriving DecidableEq, Repr

structure MetricsDNA where
  imageWidth : ℚ
  imageHeight : ℚ
  capHeight : ℚ
  xHeight : ℚ
  baseline : ℚ
  meanline : ℚ
deriving DecidableEq, Repr

structure StrokeDNA where
  thickestPx : ℚ
  thinnestPx : ℚ
  contrastRatio : ℚ
  averageWeightPx : ℚ
  weightToCapRatio : ℚ
deriving DecidableEq, Repr

structure GeometryDNA where
  curveRadiusPx : ℚ
  curveEccentricity : ℚ
  outerCornerRadiusPx : ℚ
  innerCornerRadiusPx : ℚ
  cornerRadiusRatio : ℚ
  inkTrapDepthPx : ℚ
  inkTrapAngleDeg : ℚ
deriving DecidableEq, Repr

structure TerminalsDNA where
  cutAngleDeg : ℚ
  roundnessFactor : ℚ
  serifLengthPx : ℚ
  serifThicknessPx : ℚ
deriving DecidableEq, Repr

structure SpacingDNA where
  letterSpacingPx : ℚ
  letterSpacingRatio : ℚ
  wordSpacingPx : ℚ
  sideBearingPx : ℚ
deriving DecidableEq, Repr

structure ProportionsDNA where
  widthToHeightRatio : ℚ
  xHeightToCapRatio : ℚ
  counterAreaRatio : ℚ
  negativeSpaceRatio : ℚ
deriving DecidableEq, Repr

structure FeaturesDNA where
  hasStencilGaps : Bool
  stencilGapWidthPx : ℚ
  hasLigatures : Bool
  hasTouchingLetters : Bool
deriving DecidableEq, Repr

structure StandardFontDetectionDNA where
  looksLikeStandardFont : Bool
  confidence : ℚ
  detectedCategory : String
  uniqueFeatures : List String
  standardFontSimilarity : String
deriving DecidableEq, Repr

structure CriticalFeaturesDNA where
  top5 : List String
  mustPreserve : List String
  characterWidthVariance : String
  widthDescription : String
deriving DecidableEq, Repr

structure JapaneseDNA where
  styleCategory : String
  strokeComplexity : ℚ
  radicalBalance : ℚ
  haraiFactor : ℚ
  tomeFactor : ℚ
  haneFactor : ℚ
  squareness : ℚ
  densityCenter : ℚ
  isMincho : Bool
  isGothic : Bool
  isHandwritten : Bool
  kanaRoundness : ℚ
  kanaConnectionFluidity : ℚ
  isGeometricLogotype : Bool
  isModularGrid : Bool
  gridUnitPx : ℚ
  cornerRadiusPx : ℚ
  isMonoline : Bool
  hasStencilBreaks : Bool
  strokeEndStyle : String
  counterStyle : String
  verticalAlignment : String
  horizontalCompression : ℚ
  isCalligraphic : Bool
  brushAngleDeg : ℚ
  baselineAngleDeg : ℚ
  italicAngleDeg : ℚ
  strokeRhythm : String
  entryStrokeStyle : String
  exitStrokeStyle : String
  thickThinTransition : String
  overallElegance : ℚ
  connectedness : ℚ
  dynamicRange : ℚ
deriving DecidableEq, Repr

structure MathematicalDNA where
  scriptType : ScriptType
  visualStyle : VisualStyleDNA
  metrics : MetricsDNA
  stroke : StrokeDNA
  geometry : GeometryDNA
  terminals : TerminalsDNA
  spacing : SpacingDNA
  proportions : ProportionsDNA
  features : FeaturesDNA
  standardFontDetection : StandardFontDetectionDNA
  criticalFeatures : CriticalFeaturesDNA
  japanese : Option JapaneseDNA
deriving DecidableEq, Repr

structure DNAComparison where
  strokeContrastDiff : ℚ
  strokeWeightDiff : ℚ
  curveRadiusDiff : ℚ
  cornerRadiusDiff : ℚ
  inkTrapDepthDiff : ℚ
  spacingDiff : ℚ
  proportionDiff : ℚ
  terminalDiff : ℚ
  featureMatch : Bool
  overallScore : ℤ
deriving DecidableEq, Repr

structure VisualSimilarityResult where
  similarityScore : ℚ
  isGeneratedStandardFont : Bool
  isReferenceCustomLogotype : Bool
  preservedFeatures : List String
  lostFeatures : List String
  critique : String
  textAccuracy : ℚ
  detectedText : String
deriving DecidableEq, Repr

structure IterationFeedback where
  lostFeatures : List String
  preservedFeatures : List String
  previousScore : ℤ
  critique : String
deriving DecidableEq, Repr

/-- `getDefaultDNA` of route.ts: the default stand-in DNA substituted when
extraction fails.  Its `criticalFeatures.top5` is empty -- the sentinel by
which `compareDNA` and the handler detect a default. -/
def getDefaultDNA (scriptType : ScriptType) : MathematicalDNA :=
  { scriptType := scriptType
    visualStyle :=
      { backgroundColor := "white", textColor := "black", fillStyle := "solid"
        outlineThicknessPx := 0, italicAngleDeg := 0, hasDropShadow := false
        has3DEffect := false, textureStyle := "clean" }
    metrics :=
      { imageWidth := 1024, imageHeight := 1024, capHeight := 200, xHeight := 140
        baseline := 700, meanline := 500 }
    stroke :=
      { thickestPx := 40, thinnestPx := 40, contrastRatio := 1.0
        averageWeightPx := 40, weightToCapRatio := 0.2 }
    geometry :=
      { curveRadiusPx := 100, curveEccentricity := 0, outerCornerRadiusPx := 0
        innerCornerRadiusPx := 0, cornerRadiusRatio := 0, inkTrapDepthPx := 0
        inkTrapAngleDeg := 0 }
    terminals :=
      { cutAngleDeg := 0, roundnessFactor := 0, serifLengthPx := 0
        serifThicknessPx := 0 }
    spacing :=
      { letterSpacingPx := 20, letterSpacingRatio := 0.1, wordSpacingPx := 80
        sideBearingPx := 10 }
    proportions :=
      { widthToHeightRatio := 0.8, xHeightToCapRatio := 0.7
        counterAreaRatio := 0.3, negativeSpaceRatio := 0.5 }
    features :=
      { hasStencilGaps := false, stencilGapWidthPx := 0, hasLigatures := false
        hasTouchingLetters := false }
    standardFontDetection :=
      { looksLikeStandardFont := false, confidence := 0.5
        detectedCategory := "custom_logotype", uniqueFeatures := []
        standardFontSimilarity := "none" }
    criticalFeatures :=
      { top5 := [], mustPreserve := [], characterWidthVariance := "natural"
        widthDescription := "" }
    japanese := none }

/-- The `safeDiff` closure inside `compareDNA` (route.ts lines 652-655):
`0` when both arguments are `0`, otherwise `|a-b| / max(|a|,|b|,1)`. -/
def safeDiff (a b : ℚ) : ℚ :=
  if a = 0 ∧ b = 0 then 0 else |a - b| / max |a| (max |b| 1)

/-- Whether a DNA record is (detected as) a default stand-in: its
`criticalFeatures.top5` is empty (route.ts lines 271, 634-635). -/
def isDefaultDNA (dna : MathematicalDNA) : Bool :=
  dna.criticalFeatures.top5.isEmpty

/-- `compareDNA` of route.ts (lines 633-695).  The `scriptType` parameter is
accepted and ignored, as in the source. -/
def compareDNA (ref gen : MathematicalDNA) (_scriptType : ScriptType) : DNAComparison :=
  let refIsDefault := isDefaultDNA ref
  let genIsDefault := isDefaultDNA gen
  if refIsDefault && genIsDefault then
    { strokeContrastDiff := 0, strokeWeightDiff := 0, curveRadiusDiff := 0
      cornerRadiusDiff := 0, inkTrapDepthDiff := 0, spacingDiff := 0
      proportionDiff := 0, terminalDiff := 0, featureMatch := true
      overallScore := 50 }
  else
    let strokeContrastDiff := safeDiff ref.stroke.contrastRatio gen.stroke.contrastRatio
    let strokeWeightDiff := safeDiff ref.stroke.averageWeightPx gen.stroke.averageWeightPx
    let curveRadiusDiff := safeDiff ref.geometry.curveRadiusPx gen.geometry.curveRadiusPx
    let cornerRadiusDiff := safeDiff ref.geometry.outerCornerRadiusPx gen.geometry.outerCornerRadiusPx
    let inkTrapDepthDiff := safeDiff ref.geometry.inkTrapDepthPx gen.geometry.inkTrapDepthPx
    let spacingDiff := safeDiff ref.spacing.letterSpacingPx gen.spacing.letterSpacingPx
    let proportionDiff := safeDiff ref.proportions.widthToHeightRatio gen.proportions.widthToHeightRatio
    let terminalDiff := safeDiff ref.terminals.roundnessFactor gen.terminals.roundnessFactor
    let featureMatch := ref.features.hasStencilGaps == gen.features.hasStencilGaps
    let score1 : ℚ := 100 - strokeContrastDiff * 20
    let score2 := score1 - strokeWeightDiff * 15
    let score3 := score2 - curveRadiusDiff * 15
    let score4 := score3 - cornerRadiusDiff * 10
    let score5 := score4 - inkTrapDepthDiff * 10
    let score6 := score5 - spacingDiff * 10
    let score7 := score6 - proportionDiff * 10
    let score8 := score7 - terminalDiff * 5
    let score9 := if featureMatch then score8 else score8 - 5
    let score := if refIsDefault || genIsDefault then min score9 60 else score9
    { strokeContrastDiff := strokeContrastDiff, strokeWeightDiff := strokeWeightDiff
      curveRadiusDiff := curveRadiusDiff, cornerRadiusDiff := cornerRadiusDiff
      inkTrapDepthDiff := inkTrapDepthDiff, spacingDiff := spacingDiff
      proportionDiff := proportionDiff, terminalDiff := terminalDiff
      featureMatch := featureMatch
      overallScore := max 0 (round score) }

/-- The `wasReplacedWithStandardFont` condition (route.ts lines 343-345). -/
def wasReplacedWithStandardFont (refDNA genDNA : MathematicalDNA)
    (visualEval : VisualSimilarityResult) : Bool :=
  !refDNA.standardFontDetection.looksLikeStandardFont &&
    (visualEval.isGeneratedStandardFont ||
      genDNA.standardFontDetection.looksLikeStandardFont)

/-- The unpenalized composite blend (route.ts lines 354-358):
`Math.round(similarityScore*0.4 + textAccuracy*0.3 + overallScore*0.3)`. -/
def stdBlend (v t d : ℚ) : ℤ :=
  round (v * 0.4 + t * 0.3 + d * 0.3)

/-- The penalty-weighted blend of the generic-fallback branch (route.ts lines
348-352): `Math.round(similarityScore*0.2 + textAccuracy*0.4 + overallScore*0.1)`. -/
def penBlend (v t d : ℚ) : ℤ :=
  round (v * 0.2 + t * 0.4 + d * 0.1)

/-- The composite (`finalScore`) computation of route.ts lines 342-363:
the fallback branch is clamped by 35, and a text accuracy below 50 caps the
result at 40. -/
def computeFinalScore (wasReplaced : Bool) (v t d : ℚ) : ℤ :=
  let base := if wasReplaced then min 35 (penBlend v t d) else stdBlend v t d
  if t < 50 then min base 40 else base

/-- Progress events emitted by the loop body of the `POST` handler (route.ts
lines 283-405).  Free-text `message` fields and wall-clock timing fields are
not modelled; `iteration_eval`'s payload is reduced to the fields the
specification's properties mention (iteration, composite score, fallback
flag). -/
inductive Event where
  | iterationStart (iteration : ℕ)
  | statusGenerating (iteration : ℕ)
  | iterationError (iteration : ℕ) (message : String)
  | iterationImage (iteration : ℕ) (imageUrl : String)
  | statusEvaluating (iteration : ℕ)
  | iterationEval (iteration : ℕ) (score : ℤ) (wasReplaced : Bool)
  | complete (bestScore : ℤ) (bestIteration : ℕ)
deriving DecidableEq, Repr

/-- The outcome of one successful `generateImage` call together with the
subsequent `extractMathematicalDNA` and `evaluateVisualSimilarity` results
for that iteration (both of those calls recover internally from their own
failures, so they always produce a value). -/
structure GenSuccess where
  image : String
  genDNA : MathematicalDNA
  visualEval : VisualSimilarityResult
deriving DecidableEq, Repr

/-- Oracle for one loop iteration: the outcome of the external calls and
whether the asynchronous abort listener set `isCancelled` during each await
window.  `cancelBeforeIteration` covers cancellation that becomes visible at
the loop-top check (route.ts line 288), `cancelDuringGen` the `generateImage`
await, `cancelDuringEval` the DNA-extraction/visual-evaluation awaits. -/
structure IterEnv where
  cancelBeforeIteration : Bool
  genOutcome : Except String GenSuccess
  cancelDuringGen : Bool
  cancelDuringEval : Bool
deriving Repr

/-- The mutable state of the loop (route.ts lines 188, 283-285):
`bestScore`, `bestIteration`, `previousFeedback` and the cooperative
cancellation flag. -/
structure LoopState where
  bestScore : ℤ
  bestIteration : ℕ
  previousFeedback : Option IterationFeedback
  isCancelled : Bool
deriving DecidableEq, Repr

/-- Best-result tracking (route.ts lines 385-388): update only on a strict
improvement. -/
def updateBest (bestScore : ℤ) (bestIteration : ℕ) (iteration : ℕ)
    (finalScore : ℤ) : ℤ × ℕ :=
  if finalScore > bestScore then (finalScore, iteration) else (bestScore, bestIteration)

/-- The composite score of one successfully generated iteration
(route.ts lines 338-363). -/
def iterationScore (refDNA : MathematicalDNA) (scriptType : ScriptType)
    (g : GenSuccess) : ℤ :=
  computeFinalScore (wasReplacedWithStandardFont refDNA g.genDNA g.visualEval)
    g.visualEval.similarityScore g.visualEval.textAccuracy
    ((compareDNA refDNA g.genDNA scriptType).overallScore : ℚ)

/-- The feedback record built from a completed evaluation
(route.ts lines 390-395). -/
def feedbackOf (g : GenSuccess) (finalScore : ℤ) : IterationFeedback :=
  { lostFeatures := g.visualEval.lostFeatures
    preservedFeatures := g.visualEval.preservedFeatures
    previousScore := finalScore
    critique := g.visualEval.critique }

/-- One pass of the `for` loop body (route.ts lines 287-400).  Returns the
events the pass emitted, the state it left behind, and whether it broke out
of the loop.  The cancellation checks at lines 304, 328 observe the same
flag value as the preceding check (no await separates them) and are
therefore not separate branches here. -/
def loopIter (scriptType : ScriptType) (refDNA : MathematicalDNA) (e : IterEnv)
    (iteration : ℕ) (st : LoopState) : List Event × LoopState × Bool :=
  let cancelled0 := st.isCancelled || e.cancelBeforeIteration
  if cancelled0 then ([], { st with isCancelled := true }, true)
  else
    let evs0 : List Event := [.iterationStart iteration, .statusGenerating iteration]
    let cancelled1 := e.cancelDuringGen
    match e.genOutcome with
    | .error message =>
        if cancelled1 then (evs0, { st with isCancelled := true }, true)
        else (evs0 ++ [.iterationError iteration ("Generation failed: " ++ message)], st, false)
    | .ok g =>
        if cancelled1 then (evs0, { st with isCancelled := true }, true)
        else
          let evs1 := evs0 ++
            [.iterationImage iteration ("data:image/png;base64," ++ g.image),
             .statusEvaluating iteration]
          let wasReplaced := wasReplacedWithStandardFont refDNA g.genDNA g.visualEval
          let finalScore := iterationScore refDNA scriptType g
          let cancelled2 := e.cancelDuringEval
          if cancelled2 then (evs1, { st with isCancelled := true }, true)
          else
            let evs2 := evs1 ++ [.iterationEval iteration finalScore wasReplaced]
            let best := updateBest st.bestScore st.bestIteration iteration finalScore
            ( evs2,
              { bestScore := best.1, bestIteration := best.2
                previousFeedback := some (feedbackOf g finalScore)
                isCancelled := st.isCancelled },
              decide (finalScore ≥ 90) && !wasReplaced )

/-- The iteration loop from index `iteration` with `fuel` indices left in the
budget (route.ts line 287: `for (let iteration = 1; iteration <= maxIterations;
iteration++)`). -/
def runFrom (scriptType : ScriptType) (refDNA : MathematicalDNA)
    (env : ℕ → IterEnv) : ℕ → ℕ → LoopState → List Event × LoopState
  | _, 0, st => ([], st)
  | iteration, fuel + 1, st =>
      let r := loopIter scriptType refDNA (env iteration) iteration st
      if r.2.2 then (r.1, r.2.1)
      else
        let rest := runFrom scriptType refDNA env (iteration + 1) fuel r.2.1
        (r.1 ++ rest.1, rest.2)

/-- The state at the start of the loop (route.ts lines 283-285). -/
def initState : LoopState :=
  { bestScore := 0, bestIteration := 0, previousFeedback := none, isCancelled := false }

/-- The whole loop followed by the terminal emission (route.ts lines 283-405):
the `complete` event is sent only when the session was not cancelled
(line 402). -/
def runSession (scriptType : ScriptType) (refDNA : MathematicalDNA)
    (env : ℕ → IterEnv) (maxIterations : ℕ) : List Event × LoopState :=
  let r := runFrom scriptType refDNA env 1 maxIterations initState
  if r.2.isCancelled then r
  else (r.1 ++ [.complete r.2.bestScore r.2.bestIteration], r.2)

/-- The feedback value the handler passes into iteration `n`'s
`generateImage` call (route.ts line 309): the `previousFeedback` component of
the state after iterations `1 .. n-1`. -/
def feedbackAtIteration (scriptType : ScriptType) (refDNA : MathematicalDNA)
    (env : ℕ → IterEnv) (n : ℕ) : Option IterationFeedback :=
  (runFrom scriptType refDNA env 1 (n - 1) initState).2.previousFeedback

/-- A non-default reference/candidate DNA used for concrete runs: the default
record with a populated `criticalFeatures.top5`. -/
def customDNA : MathematicalDNA :=
  { getDefaultDNA .latin with
      criticalFeatures :=
        { top5 := ["f1", "f2", "f3", "f4", "f5"], mustPreserve := ["f1"]
          characterWidthVariance := "natural", widthDescription := "w" } }

/-- A visual-evaluator verdict with the given similarity and text-accuracy
scores and no standard-font flags. -/
def veOK (v t : ℚ) : VisualSimilarityResult :=
  { similarityScore := v, isGeneratedStandardFont := false
    isReferenceCustomLogotype := true, preservedFeatures := ["p"]
    lostFeatures := ["l"], critique := "c", textAccuracy := t
    detectedText := "AI" }

/-- A successful generation whose candidate DNA equals `customDNA` (so the
DNA comparison scores 100) with the given sub-scores. -/
def genOK (v t : ℚ) : GenSuccess :=
  { image := "img", genDNA := customDNA, visualEval := veOK v t }

/-- An iteration oracle with no cancellation. -/
def quietEnv (g : Except String GenSuccess) : IterEnv :=
  { cancelBeforeIteration := false, genOutcome := g
    cancelDuringGen := false, cancelDuringEval := false }

/-- Oracle sequence for the convergence example of §8 of the spec: three
successful generations whose composite scores come out as 50, 70 and 92. -/
def envC5 (i : ℕ) : IterEnv :=
  if i = 1 then quietEnv (.ok (genOK 5 60))
  else if i = 2 then quietEnv (.ok (genOK 55 60))
  else quietEnv (.ok (genOK 80 100))

/-- Oracle sequence for the cancellation scenario: iterations 1 and 2
complete (score 50 each), and the abort arrives before iteration 3's
loop-top check. -/
def envC2 (i : ℕ) : IterEnv :=
  if i ≤ 2 then quietEnv (.ok (genOK 5 60))
  else { quietEnv (.ok (genOK 5 60)) with cancelBeforeIteration := true }

/-- Oracle sequence for the feedback-threading scenario: iteration 1's
generation throws, iteration 2 succeeds. -/
def envC6 (i : ℕ) : IterEnv :=
  if i = 1 then quietEnv (.error "boom") else quietEnv (.ok (genOK 5 60))

/-- An iteration oracle whose generation always throws with message `msg`. -/
def failEnv (msg : String) : IterEnv :=
  quietEnv (.error msg)

/-- The event block of `fuel` consecutive failing iterations starting at
index `i`: each emits `iteration_start`, the generating status and an
`iteration_error`, and the loop moves on. -/
def failTrace (msg : String) : ℕ → ℕ → List Event
  | _, 0 => []
  | i, fuel + 1 =>
      [.iterationStart i, .statusGenerating i,
       .iterationError i ("Generation failed: " ++ msg)]
        ++ failTrace msg (i + 1) fuel

/-- Whether a trace contains a terminal `complete` event. -/
def hasCompleteEvent (evs : List Event) : Bool :=
  evs.any fun e =>
    match e with
    | .complete _ _ => true
    | _ => false

/-- Whether a trace contains an `iteration_eval` event (i.e. whether any
iteration completed evaluation). -/
def hasEvalEvent (evs : List Event) : Bool :=
  evs.any fun e =>
    match e with
    | .iterationEval _ _ _ => true
    | _ => false

/-- The best-tracking fold (route.ts lines 385-388) over a list of composite
scores, with a running 1-based index. -/
def bestOfAux : ℤ × ℕ → ℕ → List ℤ → ℤ × ℕ
  | best, _, [] => best
  | best, i, s :: rest => bestOfAux (updateBest best.1 best.2 i s) (i + 1) rest

/-- `bestScore`/`bestIteration` after folding the code's best-update over the
composite scores of iterations `1 .. n`, from the initial `(0, 0)`. -/
def bestOf (scores : List ℤ) : ℤ × ℕ :=
  bestOfAux (0, 0) 1 scores

/-- The maximum of a list of scores and the initial best `0`
(`foldl max 0`). -/
def listMax (scores : List ℤ) : ℤ :=
  scores.foldl max 0

/-- The 1-based position (counting from `i`) of the first occurrence of `m`,
or `0` if `m` does not occur. -/
def firstIndexFrom (i : ℕ) (m : ℤ) : List ℤ → ℕ
  | [] => 0
  | s :: rest => if s = m then i else firstIndexFrom (i + 1) m rest

theorem roundMono {a b : ℚ} (h : a ≤ b) : round a ≤ round b := by
  rw [round_eq, round_eq]
  exact Int.floor_mono (by linarith)

theorem roundLeInt {a : ℚ} {n : ℤ} (h : a ≤ (n : ℚ)) : round a ≤ n := by
  calc round a ≤ round ((n : ℚ)) := roundMono h
    _ = n := round_intCast n

theorem roundNonneg {a : ℚ} (h : 0 ≤ a) : 0 ≤ round a := by
  have := roundMono h
  simpa using this

theorem maxRoundLe {s : ℚ} {n : ℤ} (h0 : 0 ≤ n) (h : s ≤ (n : ℚ)) :
    max 0 (round s) ≤ n :=
  max_le h0 (roundLeInt h)

/-- C1: for every iteration evaluation the composite equals
`round(visual*0.4 + accuracy*0.3 + dna*0.3)`; under the generic-fallback flag
it is instead `min(35, round(visual*0.2 + accuracy*0.4 + dna*0.1))`;
a text accuracy below 50 caps the (possibly already penalized) composite at
40; when both penalties apply the tighter ceiling 35 wins. -/
theorem forge_C1 (wasReplaced : Bool) (v t d : ℚ) :
    (wasReplaced = false → 50 ≤ t →
      computeFinalScore wasReplaced v t d = stdBlend v t d)
    ∧ (wasReplaced = false → t < 50 →
      computeFinalScore wasReplaced v t d = min (stdBlend v t d) 40)
    ∧ (wasReplaced = true →
      computeFinalScore wasReplaced v t d = min 35 (penBlend v t d))
    ∧ (t < 50 → computeFinalScore wasReplaced v t d ≤ 40)
    ∧ (wasReplaced = true → computeFinalScore wasReplaced v t d ≤ 35) := by
  refine ⟨?_, ?_, ?_, ?_, ?_⟩
  · intro hw ht
    simp [computeFinalScore, hw, not_lt.mpr ht]
  · intro hw ht
    simp [computeFinalScore, hw, ht]
  · intro hw
    by_cases ht : t < 50
    · simp only [computeFinalScore, hw, if_true, ht, if_pos]
      exact min_eq_left ((min_le_left _ _).trans (by norm_num))
    · simp [computeFinalScore, hw, ht]
  · intro ht
    simp only [computeFinalScore, ht, if_pos]
    exact min_le_right _ _
  · intro hw
    by_cases ht : t < 50
    · simp only [computeFinalScore, hw, if_true, ht, if_pos]
      exact (min_le_left _ _).trans (min_le_left _ _)
    · simp only [computeFinalScore, hw, if_true, ht, if_neg, ite_false]
      exact min_le_left _ _

theorem forge_C1_witness :
    computeFinalScore false 90 100 80 = stdBlend 90 100 80
    ∧ computeFinalScore true 90 90 90 ≤ 35 :=
  ⟨(forge_C1 false 90 100 80).1 rfl (by norm_num),
   (forge_C1 true 90 90 90).2.2.2.2 rfl⟩

/-- C8: with all three sub-scores in `[0,100]` the composite lies in
`[0,100]`, and with no penalty active (no fallback flag, text accuracy at
least 50) it is non-decreasing in each sub-score separately. -/
theorem forge_C8 (wasReplaced : Bool) (v t d v' t' d' : ℚ) :
    (0 ≤ v → v ≤ 100 → 0 ≤ t → t ≤ 100 → 0 ≤ d → d ≤ 100 →
      0 ≤ computeFinalScore wasReplaced v t d
        ∧ computeFinalScore wasReplaced v t d ≤ 100)
    ∧ (50 ≤ t → v ≤ v' →
      computeFinalScore false v t d ≤ computeFinalScore false v' t d)
    ∧ (50 ≤ t → 50 ≤ t' → t ≤ t' →
      computeFinalScore false v t d ≤ computeFinalScore false v t' d)
    ∧ (50 ≤ t → d ≤ d' →
      computeFinalScore false v t d ≤ computeFinalScore false v t d') := by
  refine ⟨?_, ?_, ?_, ?_⟩
  · intro hv0 hv1 ht0 ht1 hd0 hd1
    have hstd0 : (0 : ℤ) ≤ stdBlend v t d := by
      unfold stdBlend
      exact roundNonneg (by linarith)
    have hstd1 : stdBlend v t d ≤ 100 := by
      unfold stdBlend
      exact roundLeInt (by push_cast; linarith)
    have hpen0 : (0 : ℤ) ≤ penBlend v t d := by
      unfold penBlend
      exact roundNonneg (by linarith)
    have hbase0 : (0 : ℤ) ≤ if wasReplaced then min 35 (penBlend v t d) else stdBlend v t d := by
      cases wasReplaced
      · simpa using hstd0
      · simp only [if_true]
        exact le_min (by norm_num) hpen0
    have hbase1 : (if wasReplaced then min 35 (penBlend v t d) else stdBlend v t d) ≤ 100 := by
      cases wasReplaced
      · simpa using hstd1
      · simp only [if_true]
        exact (min_le_left _ _).trans (by norm_num)
    unfold computeFinalScore
    by_cases ht : t < 50
    · simp only [ht, if_pos]
      exact ⟨le_min hbase0 (by norm_num), (min_le_right _ _).trans (by norm_num)⟩
    · simp only [ht, if_neg, ite_false]
      exact ⟨hbase0, hbase1⟩
  · intro ht hvv
    simp only [computeFinalScore, Bool.false_eq_true, if_false, not_lt.mpr ht, ite_false]
    unfold stdBlend
    exact roundMono (by linarith)
  · intro ht ht' htt
    simp only [computeFinalScore, Bool.false_eq_true, if_false, not_lt.mpr ht,
      not_lt.mpr ht', ite_false]
    unfold stdBlend
    exact roundMono (by linarith)
  · intro ht hdd
    simp only [computeFinalScore, Bool.false_eq_true, if_false, not_lt.mpr ht, ite_false]
    unfold stdBlend
    exact roundMono (by linarith)

theorem forge_C8_witness :
    (0 ≤ computeFinalScore false 50 60 70 ∧ computeFinalScore false 50 60 70 ≤ 100)
    ∧ computeFinalScore false 50 60 70 ≤ computeFinalScore false 60 60 70 :=
  ⟨(forge_C8 false 50 60 70 60 60 80).1 (by norm_num) (by norm_num) (by norm_num)
      (by norm_num) (by norm_num) (by norm_num),
   (forge_C8 false 50 60 70 60 60 80).2.1 (by norm_num) (by norm_num)⟩

/-- C10: the generic-fallback penalty branch is taken exactly when the
reference DNA is not itself flagged as a standard font and either the visual
evaluator or the candidate DNA's standard-font detection flags the candidate;
in particular a reference flagged as a standard font forces the standard
0.4/0.3/0.3 blend whatever the evaluator says. -/
theorem forge_C10 (refDNA genDNA : MathematicalDNA) (ve : VisualSimilarityResult)
    (v t d : ℚ) :
    (wasReplacedWithStandardFont refDNA genDNA ve = true ↔
      (refDNA.standardFontDetection.looksLikeStandardFont = false ∧
        (ve.isGeneratedStandardFont = true ∨
          genDNA.standardFontDetection.looksLikeStandardFont = true)))
    ∧ (refDNA.standardFontDetection.looksLikeStandardFont = true →
      computeFinalScore (wasReplacedWithStandardFont refDNA genDNA ve) v t d =
        if t < 50 then min (stdBlend v t d) 40 else stdBlend v t d) := by
  constructor
  · simp [wasReplacedWithStandardFont, Bool.not_eq_true']
  · intro h
    have hw : wasReplacedWithStandardFont refDNA genDNA ve = false := by
      simp [wasReplacedWithStandardFont, h]
    simp [computeFinalScore, hw]

theorem forge_C10_witness :
    computeFinalScore
        (wasReplacedWithStandardFont
          { customDNA with standardFontDetection :=
              { customDNA.standardFontDetection with looksLikeStandardFont := true } }
          customDNA (veOK 90 90))
        90 90 90 =
      if (90 : ℚ) < 50 then min (stdBlend 90 90 90) 40 else stdBlend 90 90 90 :=
  (forge_C10
    { customDNA with standardFontDetection :=
        { customDNA.standardFontDetection with looksLikeStandardFont := true } }
    customDNA (veOK 90 90) 90 90 90).2 rfl

/-- C3: when both DNA records are default stand-ins the comparison score is
the fixed neutral 50 whatever the numeric fields hold; when exactly one side
is a default the score is capped at 60. -/
theorem forge_C3 (ref gen : MathematicalDNA) (scriptType : ScriptType) :
    (isDefaultDNA ref = true → isDefaultDNA gen = true →
      (compareDNA ref gen scriptType).overallScore = 50)
    ∧ (isDefaultDNA ref = true → isDefaultDNA gen = false →
      (compareDNA ref gen scriptType).overallScore ≤ 60)
    ∧ (isDefaultDNA ref = false → isDefaultDNA gen = true →
      (compareDNA ref gen scriptType).overallScore ≤ 60) := by
  refine ⟨?_, ?_, ?_⟩
  · intro h1 h2
    simp [compareDNA, h1, h2]
  · intro h1 h2
    simp only [compareDNA, h1, h2, Bool.and_false, Bool.true_or, if_false,
      Bool.false_eq_true, if_true]
    exact maxRoundLe (by norm_num) ((min_le_right _ _).trans (by norm_num))
  · intro h1 h2
    simp only [compareDNA, h1, h2, Bool.false_and, Bool.or_true, if_false,
      Bool.false_eq_true, if_true]
    exact maxRoundLe (by norm_num) ((min_le_right _ _).trans (by norm_num))

theorem forge_C3_witness :
    (compareDNA
        { getDefaultDNA .latin with stroke :=
            { thickestPx := 7, thinnestPx := 3, contrastRatio := 9
              averageWeightPx := 5, weightToCapRatio := 2 } }
        (getDefaultDNA .latin) .latin).overallScore = 50
    ∧ (compareDNA (getDefaultDNA .latin) customDNA .latin).overallScore ≤ 60 :=
  ⟨(forge_C3
      { getDefaultDNA .latin with stroke :=
          { thickestPx := 7, thinnestPx := 3, contrastRatio := 9
            averageWeightPx := 5, weightToCapRatio := 2 } }
      (getDefaultDNA .latin) .latin).1 rfl rfl,
   (forge_C3 (getDefaultDNA .latin) customDNA .latin).2.1 rfl rfl⟩

/-- C4: on two non-default DNA records the comparison score is 100 minus the
weighted normalized field differences (weights 20/15/15/10/10/10/10/5 and 5
for the boolean feature mismatch, summing to 100), rounded and floored at 0;
`safeDiff` is symmetric and vanishes on the diagonal. -/
theorem forge_C4 (ref gen : MathematicalDNA) (scriptType : ScriptType) (a b : ℚ) :
    (isDefaultDNA ref = false → isDefaultDNA gen = false →
      (compareDNA ref gen scriptType).overallScore =
        max 0 (round ((100 : ℚ)
          - safeDiff ref.stroke.contrastRatio gen.stroke.contrastRatio * 20
          - safeDiff ref.stroke.averageWeightPx gen.stroke.averageWeightPx * 15
          - safeDiff ref.geometry.curveRadiusPx gen.geometry.curveRadiusPx * 15
          - safeDiff ref.geometry.outerCornerRadiusPx gen.geometry.outerCornerRadiusPx * 10
          - safeDiff ref.geometry.inkTrapDepthPx gen.geometry.inkTrapDepthPx * 10
          - safeDiff ref.spacing.letterSpacingPx gen.spacing.letterSpacingPx * 10
          - safeDiff ref.proportions.widthToHeightRatio gen.proportions.widthToHeightRatio * 10
          - safeDiff ref.terminals.roundnessFactor gen.terminals.roundnessFactor * 5
          - (if ref.features.hasStencilGaps == gen.features.hasStencilGaps then 0 else 5))))
    ∧ safeDiff a b = safeDiff b a
    ∧ safeDiff a a = 0
    ∧ ((20 : ℚ) + 15 + 15 + 10 + 10 + 10 + 10 + 5 + 5 = 100) := by
  refine ⟨?_, ?_, ?_, by norm_num⟩
  · intro h1 h2
    simp only [compareDNA, h1, h2, Bool.and_self, Bool.or_self, Bool.false_eq_true,
      if_false]
    by_cases hfm : ref.features.hasStencilGaps == gen.features.hasStencilGaps
    · simp only [hfm, if_true, sub_zero]
    · simp only [hfm, Bool.false_eq_true, if_false]
  · unfold safeDiff
    rw [abs_sub_comm, max_left_comm]
    exact if_congr and_comm rfl rfl
  · simp [safeDiff, sub_self]

theorem forge_C4_witness :
    (compareDNA customDNA customDNA .latin).overallScore = 100 := by
  have h := (forge_C4 customDNA customDNA .latin 0 0).1 rfl rfl
  have hd : ∀ x : ℚ, safeDiff x x = 0 := fun x =>
    (forge_C4 customDNA customDNA .latin x x).2.2.1
  rw [h]
  norm_num [hd, round_eq]

theorem compareDNA_customDNA_self (scriptType : ScriptType) :
    (compareDNA customDNA customDNA scriptType).overallScore = 100 := by
  have hd : ∀ x : ℚ, safeDiff x x = 0 := by
    intro x
    simp [safeDiff, sub_self]
  norm_num [compareDNA, isDefaultDNA, customDNA, getDefaultDNA, hd, round_eq]

theorem wasReplaced_genOK (v t : ℚ) :
    wasReplacedWithStandardFont customDNA (genOK v t).genDNA (genOK v t).visualEval
      = false := by
  simp [wasReplacedWithStandardFont, genOK, veOK, customDNA, getDefaultDNA]

theorem iterationScore_genOK (v t : ℚ) :
    iterationScore customDNA .latin (genOK v t) = computeFinalScore false v t 100 := by
  unfold iterationScore
  rw [wasReplaced_genOK]
  show computeFinalScore false (genOK v t).visualEval.similarityScore
    (genOK v t).visualEval.textAccuracy
    (((compareDNA customDNA (genOK v t).genDNA .latin).overallScore : ℚ)) = _
  norm_num [genOK, veOK, compareDNA_customDNA_self]

theorem iterationScore_genOK_50 :
    iterationScore customDNA .latin (genOK 5 60) = 50 := by
  rw [iterationScore_genOK]
  norm_num [computeFinalScore, stdBlend, round_eq]

theorem iterationScore_genOK_70 :
    iterationScore customDNA .latin (genOK 55 60) = 70 := by
  rw [iterationScore_genOK]
  norm_num [computeFinalScore, stdBlend, round_eq]

theorem iterationScore_genOK_92 :
    iterationScore customDNA .latin (genOK 80 100) = 92 := by
  rw [iterationScore_genOK]
  norm_num [computeFinalScore, stdBlend, round_eq]

theorem genOK_image (v t : ℚ) : (genOK v t).image = "img" := rfl

theorem imageUrl_img :
    "data:image/png;base64," ++ "img" = "data:image/png;base64,img" := rfl

theorem errMsg_boom : "Generation failed: " ++ "boom" = "Generation failed: boom" := rfl

/-- C5: a completed, un-cancelled iteration breaks out of the loop exactly
when its composite score is at least the hard-coded convergence threshold 90
and the generic-fallback flag is false; with composite scores 50, 70, 92 the
session converges after iteration 3 and iteration 4 is never attempted. -/
theorem forge_C5 (scriptType : ScriptType) (refDNA : MathematicalDNA) (e : IterEnv)
    (iteration : ℕ) (st : LoopState) (g : GenSuccess)
    (hc0 : st.isCancelled = false) (hc1 : e.cancelBeforeIteration = false)
    (hc2 : e.cancelDuringGen = false) (hc3 : e.cancelDuringEval = false)
    (hg : e.genOutcome = .ok g) :
    ((loopIter scriptType refDNA e iteration st).2.2 = true ↔
      (90 ≤ iterationScore refDNA scriptType g ∧
        wasReplacedWithStandardFont refDNA g.genDNA g.visualEval = false))
    ∧ (runSession .latin customDNA envC5 5).1 =
      [.iterationStart 1, .statusGenerating 1,
       .iterationImage 1 "data:image/png;base64,img", .statusEvaluating 1,
       .iterationEval 1 50 false,
       .iterationStart 2, .statusGenerating 2,
       .iterationImage 2 "data:image/png;base64,img", .statusEvaluating 2,
       .iterationEval 2 70 false,
       .iterationStart 3, .statusGenerating 3,
       .iterationImage 3 "data:image/png;base64,img", .statusEvaluating 3,
       .iterationEval 3 92 false,
       .complete 92 3]
    ∧ Event.iterationStart 4 ∉ (runSession .latin customDNA envC5 5).1 := by
  have ht : (runSession .latin customDNA envC5 5).1 =
      [.iterationStart 1, .statusGenerating 1,
       .iterationImage 1 "data:image/png;base64,img", .statusEvaluating 1,
       .iterationEval 1 50 false,
       .iterationStart 2, .statusGenerating 2,
       .iterationImage 2 "data:image/png;base64,img", .statusEvaluating 2,
       .iterationEval 2 70 false,
       .iterationStart 3, .statusGenerating 3,
       .iterationImage 3 "data:image/png;base64,img", .statusEvaluating 3,
       .iterationEval 3 92 false,
       .complete 92 3] := by
    norm_num [runSession, runFrom, loopIter, envC5, quietEnv, initState, updateBest,
      iterationScore_genOK_50, iterationScore_genOK_70, iterationScore_genOK_92,
      wasReplaced_genOK, feedbackOf, genOK_image, imageUrl_img]
  refine ⟨?_, ht, ?_⟩
  · simp only [loopIter, hc0, hc1, hc2, hc3, hg, Bool.or_self, Bool.false_eq_true,
      if_false]
    simp [Bool.and_eq_true, decide_eq_true_eq, Bool.not_eq_true', ge_iff_le]
  · rw [ht]
    simp

theorem forge_C5_witness :
    (loopIter .latin customDNA (quietEnv (.ok (genOK 80 100))) 3 initState).2.2 = true := by
  have h := (forge_C5 .latin customDNA (quietEnv (.ok (genOK 80 100))) 3 initState
    (genOK 80 100) rfl rfl rfl rfl rfl).1
  refine h.mpr ⟨?_, wasReplaced_genOK 80 100⟩
  rw [iterationScore_genOK_92]
  norm_num

theorem hasCompleteEvent_append (a b : List Event) :
    hasCompleteEvent (a ++ b) = (hasCompleteEvent a || hasCompleteEvent b) := by
  simp [hasCompleteEvent, List.any_append]

theorem loopIter_no_complete (scriptType : ScriptType) (refDNA : MathematicalDNA)
    (e : IterEnv) (iteration : ℕ) (st : LoopState) :
    hasCompleteEvent (loopIter scriptType refDNA e iteration st).1 = false := by
  rcases hg : e.genOutcome with msg | g <;>
    rcases h0 : st.isCancelled <;>
    rcases h0' : e.cancelBeforeIteration <;>
    rcases h1 : e.cancelDuringGen <;>
    rcases h2 : e.cancelDuringEval <;>
    simp [loopIter, hg, h0, h0', h1, h2, hasCompleteEvent]

theorem runFrom_no_complete (scriptType : ScriptType) (refDNA : MathematicalDNA)
    (env : ℕ → IterEnv) :
    ∀ fuel iteration st,
      hasCompleteEvent (runFrom scriptType refDNA env iteration fuel st).1 = false := by
  intro fuel
  induction fuel with
  | zero => intro i st; rfl
  | succ n ih =>
      intro i st
      unfold runFrom
      by_cases hb : (loopIter scriptType refDNA (env i) i st).2.2 = true
      · simp [hb, loopIter_no_complete]
      · simp [hb, hasCompleteEvent_append, loopIter_no_complete, ih]

/-- C2 counterexample: with cancellation arriving after iteration 2's events
and before iteration 3's loop-top check, the code emits no iteration 3
events -- but it also emits no terminal `complete` event at all: the
post-loop emission is guarded by `!isCancelled` (route.ts line 402), so the
stream simply closes after iteration 2's events. -/
theorem forge_C2_counterexample :
    (runSession .latin customDNA envC2 5).1 =
      [.iterationStart 1, .statusGenerating 1,
       .iterationImage 1 "data:image/png;base64,img", .statusEvaluating 1,
       .iterationEval 1 50 false,
       .iterationStart 2, .statusGenerating 2,
       .iterationImage 2 "data:image/png;base64,img", .statusEvaluating 2,
       .iterationEval 2 50 false]
    ∧ hasCompleteEvent (runSession .latin customDNA envC2 5).1 = false := by
  have h : (runSession .latin customDNA envC2 5).1 =
      [.iterationStart 1, .statusGenerating 1,
       .iterationImage 1 "data:image/png;base64,img", .statusEvaluating 1,
       .iterationEval 1 50 false,
       .iterationStart 2, .statusGenerating 2,
       .iterationImage 2 "data:image/png;base64,img", .statusEvaluating 2,
       .iterationEval 2 50 false] := by
    norm_num [runSession, runFrom, loopIter, envC2, quietEnv, initState, updateBest,
      iterationScore_genOK_50, wasReplaced_genOK, feedbackOf, genOK_image, imageUrl_img]
  refine ⟨h, ?_⟩
  rw [h]
  rfl

/-- C2 (amended): if cancellation is observed at an iteration's loop-top
check, that iteration and all later ones emit nothing; a session whose loop
ended cancelled emits no terminal `complete` event -- its stream closes with
only the events already emitted. -/
theorem forge_C2_amended (scriptType : ScriptType) (refDNA : MathematicalDNA)
    (env : ℕ → IterEnv) (maxIterations iteration fuel : ℕ) (st : LoopState) :
    ((st.isCancelled || (env iteration).cancelBeforeIteration) = true →
      (runFrom scriptType refDNA env iteration (fuel + 1) st).1 = []
        ∧ (runFrom scriptType refDNA env iteration (fuel + 1) st).2.isCancelled = true)
    ∧ ((runFrom scriptType refDNA env 1 maxIterations initState).2.isCancelled = true →
      (runSession scriptType refDNA env maxIterations).1 =
        (runFrom scriptType refDNA env 1 maxIterations initState).1)
    ∧ ((runFrom scriptType refDNA env 1 maxIterations initState).2.isCancelled = true →
      hasCompleteEvent (runSession scriptType refDNA env maxIterations).1 = false) := by
  refine ⟨?_, ?_, ?_⟩
  · intro h
    constructor <;> simp [runFrom, loopIter, h]
  · intro h
    simp [runSession, h]
  · intro h
    have h2 : (runSession scriptType refDNA env maxIterations).1 =
        (runFrom scriptType refDNA env 1 maxIterations initState).1 := by
      simp [runSession, h]
    rw [h2]
    exact runFrom_no_complete scriptType refDNA env maxIterations 1 initState

theorem forge_C2_witness :
    (runFrom .latin customDNA envC2 3 1 initState).1 = []
    ∧ (runFrom .latin customDNA envC2 3 1 initState).2.isCancelled = true :=
  (forge_C2_amended .latin customDNA envC2 5 3 0 initState).1 rfl

/-- C6 counterexample: when iteration 1's generation fails, iteration 2 still
runs but receives no feedback record -- `previousFeedback` is still absent
(`none`), contradicting "present on all later iterations". -/
theorem forge_C6_counterexample :
    feedbackAtIteration .latin customDNA envC6 2 = none
    ∧ Event.iterationStart 2 ∈ (runSession .latin customDNA envC6 2).1 := by
  constructor
  · simp [feedbackAtIteration, runFrom, loopIter, envC6, quietEnv, initState]
  · have h : (runSession .latin customDNA envC6 2).1 =
        [.iterationStart 1, .statusGenerating 1,
         .iterationError 1 "Generation failed: boom",
         .iterationStart 2, .statusGenerating 2,
         .iterationImage 2 "data:image/png;base64,img", .statusEvaluating 2,
         .iterationEval 2 50 false, .complete 50 2] := by
      norm_num [runSession, runFrom, loopIter, envC6, quietEnv, initState, updateBest,
        iterationScore_genOK_50, wasReplaced_genOK, feedbackOf, genOK_image, imageUrl_img,
        errMsg_boom]
    rw [h]
    simp

/-- C6 (amended): the feedback record is absent on iteration 1; an iteration
that completes evaluation replaces it with the record derived from its own
evaluation (lost/preserved features, critique, composite score), so it is
present from the first completed iteration onwards; an iteration whose
generation fails leaves it unchanged -- in particular it stays absent until
some iteration completes. -/
theorem forge_C6_amended (scriptType : ScriptType) (refDNA : MathematicalDNA)
    (env : ℕ → IterEnv) (e : IterEnv) (iteration : ℕ) (st : LoopState)
    (g : GenSuccess) (msg : String) :
    feedbackAtIteration scriptType refDNA env 1 = none
    ∧ (st.isCancelled = false → e.cancelBeforeIteration = false →
        e.cancelDuringGen = false → e.cancelDuringEval = false →
        e.genOutcome = .ok g →
        (loopIter scriptType refDNA e iteration st).2.1.previousFeedback =
          some (feedbackOf g (iterationScore refDNA scriptType g)))
    ∧ (st.isCancelled = false → e.cancelBeforeIteration = false →
        e.cancelDuringGen = false → e.genOutcome = .error msg →
        (loopIter scriptType refDNA e iteration st).2.1.previousFeedback =
          st.previousFeedback) := by
  refine ⟨rfl, ?_, ?_⟩
  · intro h0 h1 h2 h3 hg
    simp [loopIter, h0, h1, h2, h3, hg]
  · intro h0 h1 h2 hg
    simp [loopIter, h0, h1, h2, hg]

theorem forge_C6_witness :
    (loopIter .latin customDNA (quietEnv (.ok (genOK 5 60))) 1 initState).2.1.previousFeedback =
      some (feedbackOf (genOK 5 60) (iterationScore customDNA .latin (genOK 5 60)))
    ∧ (loopIter .latin customDNA (quietEnv (.error "boom")) 2 initState).2.1.previousFeedback =
      initState.previousFeedback :=
  ⟨(forge_C6_amended .latin customDNA envC6 (quietEnv (.ok (genOK 5 60))) 1 initState
      (genOK 5 60) "boom").2.1 rfl rfl rfl rfl rfl,
   (forge_C6_amended .latin customDNA envC6 (quietEnv (.error "boom")) 2 initState
      (genOK 5 60) "boom").2.2 rfl rfl rfl rfl⟩

theorem foldlMaxInitLe (l : List ℤ) : ∀ b : ℤ, b ≤ l.foldl max b := by
  induction l with
  | nil => intro b; simp
  | cons x rest ih =>
      intro b
      rw [List.foldl_cons]
      exact le_trans (le_max_left b x) (ih (max b x))

theorem bestOfAux_fst (l : List ℤ) :
    ∀ (b : ℤ) (j i : ℕ), (bestOfAux (b, j) i l).1 = l.foldl max b := by
  induction l with
  | nil => intros; rfl
  | cons s rest ih =>
      intro b j i
      rw [List.foldl_cons]
      simp only [bestOfAux]
      by_cases hb : s > b
      · rw [show updateBest b j i s = (s, i) from if_pos hb, ih,
          max_eq_right hb.le]
      · rw [show updateBest b j i s = (b, j) from if_neg hb, ih,
          max_eq_left (not_lt.mp hb)]

theorem bestOfAux_stay (l : List ℤ) :
    ∀ (b : ℤ) (j i : ℕ), l.foldl max b ≤ b → bestOfAux (b, j) i l = (b, j) := by
  induction l with
  | nil => intro b j i _; rfl
  | cons s rest ih =>
      intro b j i h
      rw [List.foldl_cons] at h
      have hs : max b s ≤ b := le_trans (foldlMaxInitLe rest (max b s)) h
      have hsb : s ≤ b := le_trans (le_max_right b s) hs
      have hmax : max b s = b := max_eq_left hsb
      simp only [bestOfAux]
      rw [show updateBest b j i s = (b, j) from if_neg (not_lt.mpr hsb)]
      rw [hmax] at h
      exact ih b j (i + 1) h

theorem bestOfAux_snd (l : List ℤ) :
    ∀ (b : ℤ) (j i : ℕ), b < l.foldl max b →
      (bestOfAux (b, j) i l).2 = firstIndexFrom i (l.foldl max b) l := by
  induction l with
  | nil =>
      intro b j i h
      rw [List.foldl_nil] at h
      exact absurd h (lt_irrefl b)
  | cons s rest ih =>
      intro b j i h
      rw [List.foldl_cons] at h ⊢
      simp only [bestOfAux, firstIndexFrom]
      by_cases hb : s > b
      · have hmax : max b s = s := max_eq_right hb.le
        rw [hmax] at h ⊢
        rw [show updateBest b j i s = (s, i) from if_pos hb]
        by_cases hs : s < rest.foldl max s
        · rw [if_neg (ne_of_lt hs), ih s i (i + 1) hs]
        · have hMeq : rest.foldl max s = s :=
            le_antisymm (not_lt.mp hs) (foldlMaxInitLe rest s)
          rw [hMeq, if_pos rfl,
            bestOfAux_stay rest s i (i + 1) (le_of_eq hMeq)]
      · have hmax : max b s = b := max_eq_left (not_lt.mp hb)
        rw [hmax] at h ⊢
        have hne : s ≠ rest.foldl max b :=
          ne_of_lt (lt_of_le_of_lt (not_lt.mp hb) h)
        rw [show updateBest b j i s = (b, j) from if_neg hb,
          if_neg hne, ih b j (i + 1) h]

/-- C7 counterexample: composite score 0 is achievable, and on the score
sequence `[0, 0]` the code keeps `bestIteration = 0` (its initial value)
although the first 1-based index attaining the maximum (0) is 1 -- so
`bestIteration` is not always the first index attaining the maximum. -/
theorem forge_C7_counterexample :
    computeFinalScore false 0 0 0 = 0
    ∧ bestOf [0, 0] = (0, 0)
    ∧ listMax [0, 0] = 0
    ∧ firstIndexFrom 1 (listMax [0, 0]) [0, 0] = 1
    ∧ (bestOf [0, 0]).2 ≠ firstIndexFrom 1 (listMax [0, 0]) [0, 0] := by
  refine ⟨?_, by decide, by decide, by decide, by decide⟩
  norm_num [computeFinalScore, stdBlend, round_eq]

/-- C7 (amended): `bestScore` is the maximum of the composite scores and of
the initial best 0; whenever that maximum is positive (some iteration beat
the initial best), `bestIteration` is the first 1-based index attaining it,
ties keeping the earlier iteration -- e.g. scores `[60, 85, 70, 85]` give
best 85 at iteration 2.  When no score is positive, `bestScore` and
`bestIteration` keep their initial value 0. -/
theorem forge_C7_amended (scores : List ℤ) :
    (bestOf scores).1 = listMax scores
    ∧ (0 < listMax scores →
        (bestOf scores).2 = firstIndexFrom 1 (listMax scores) scores)
    ∧ bestOf [60, 85, 70, 85] = (85, 2) := by
  refine ⟨bestOfAux_fst scores 0 0 1, ?_, by decide⟩
  intro h
  exact bestOfAux_snd scores 0 0 1 h

theorem forge_C7_witness :
    (bestOf [60, 85, 70, 85]).2 =
      firstIndexFrom 1 (listMax [60, 85, 70, 85]) [60, 85, 70, 85] :=
  (forge_C7_amended [60, 85, 70, 85]).2.1 (by decide)

theorem hasEvalEvent_append (a b : List Event) :
    hasEvalEvent (a ++ b) = (hasEvalEvent a || hasEvalEvent b) := by
  simp [hasEvalEvent, List.any_append]

theorem runFrom_fail (scriptType : ScriptType) (refDNA : MathematicalDNA) (msg : String) :
    ∀ (fuel i : ℕ) (st : LoopState), st.isCancelled = false →
      runFrom scriptType refDNA (fun _ => failEnv msg) i fuel st =
        (failTrace msg i fuel, st) := by
  intro fuel
  induction fuel with
  | zero => intro i st _; rfl
  | succ n ih =>
      intro i st h
      unfold runFrom
      have hl : loopIter scriptType refDNA (failEnv msg) i st =
          ([.iterationStart i, .statusGenerating i,
            .iterationError i ("Generation failed: " ++ msg)], st, false) := by
        simp [loopIter, failEnv, quietEnv, h]
      simp [hl, ih (i + 1) st h, failTrace]

theorem failTrace_no_eval (msg : String) :
    ∀ fuel i, hasEvalEvent (failTrace msg i fuel) = false := by
  intro fuel
  induction fuel with
  | zero => intro i; rfl
  | succ n ih =>
      intro i
      have hstep : failTrace msg i (n + 1) =
          [.iterationStart i, .statusGenerating i,
           .iterationError i ("Generation failed: " ++ msg)]
            ++ failTrace msg (i + 1) n := rfl
      rw [hstep, hasEvalEvent_append, ih (i + 1)]
      rfl

/-- C9: when every generation attempt throws, each of the `maxIterations`
iterations emits its start events and an `iteration_error` and the loop
continues; the session still ends with a terminal `complete` event carrying
`bestScore = 0` and `bestIteration = 0`, and no iteration ever completes
evaluation (no `iteration_eval` event). -/
theorem forge_C9 (scriptType : ScriptType) (refDNA : MathematicalDNA) (msg : String)
    (maxIterations : ℕ) :
    (runSession scriptType refDNA (fun _ => failEnv msg) maxIterations).1 =
      failTrace msg 1 maxIterations ++ [.complete 0 0]
    ∧ hasEvalEvent
        (runSession scriptType refDNA (fun _ => failEnv msg) maxIterations).1 = false
    ∧ (runSession scriptType refDNA (fun _ => failEnv msg) maxIterations).2.bestScore = 0
    ∧ (runSession scriptType refDNA (fun _ => failEnv msg) maxIterations).2.bestIteration
        = 0 := by
  have h := runFrom_fail scriptType refDNA msg maxIterations 1 initState rfl
  have hs : runSession scriptType refDNA (fun _ => failEnv msg) maxIterations =
      (failTrace msg 1 maxIterations ++ [.complete 0 0], initState) := by
    simp only [runSession, h]
    rfl
  rw [hs]
  refine ⟨rfl, ?_, rfl, rfl⟩
  rw [hasEvalEvent_append, failTrace_no_eval msg maxIterations 1]
  rfl
